import Mathlib

/-!
Verification development for the CSR-Scanner repository.

The Python source is shallowly embedded: pure computations become Lean
functions, float arithmetic on scores and delays is modelled over `ℚ`,
and effectful probes (HTTP fetch, browser rendering, DOM observation)
are modelled by passing their outcomes in as explicit inputs.  Python
exceptions are modelled by `PyException`: the message string together
with boolean flags recording which structural `isinstance` tests of
`error_handler.py` the exception satisfies, plus the optional attached
HTTP response status.
-/

/-! ## String helpers: Python's `in` substring test and `str.lower` -/

/-- `charsStartWith p s` is true when `p` is an initial segment of `s`. -/
def charsStartWith : List Char → List Char → Bool
  | [], _ => true
  | _ :: _, [] => false
  | p :: ps, c :: cs => p == c && charsStartWith ps cs

/-- `charsContain p s` is true when `p` occurs contiguously inside `s`. -/
def charsContain (pat : List Char) : List Char → Bool
  | [] => charsStartWith pat []
  | c :: cs => charsStartWith pat (c :: cs) || charsContain pat cs

/-- Python's `pat in s` substring test. -/
def strContains (s pat : String) : Bool :=
  charsContain pat.toList s.toList

/-- Python's `str.lower()` (the source only lowercases ASCII messages). -/
def strLower (s : String) : String :=
  String.mk (s.toList.map Char.toLower)

/-! ## Data model (`models.py`) -/

/-- `models.ErrorCategory`. -/
inductive ErrorCategory
  | timeout_error
  | http_error
  | ssl_error
  | network_error
  | browser_error
  | parse_error
  | dns_error
  | unknown_error
deriving DecidableEq, Repr

/-- The `.value` strings of `models.ErrorCategory`. -/
def ErrorCategory.val : ErrorCategory → String
  | .timeout_error => "TimeoutError"
  | .http_error => "HTTPError"
  | .ssl_error => "SSLError"
  | .network_error => "NetworkError"
  | .browser_error => "BrowserError"
  | .parse_error => "ParseError"
  | .dns_error => "DNSError"
  | .unknown_error => "UnknownError"

/-- `models.RenderingType`. -/
inductive RenderingType
  | server_side_rendered
  | client_side_rendered
  | not_accessible
deriving DecidableEq, Repr

/-- `models.ProcessingStatus`. -/
inductive ProcessingStatus
  | success
  | failed
  | retrying
deriving DecidableEq, Repr

/-! ## Python exceptions

An exception value is modelled by its message and by flags recording the
structural `isinstance` tests performed in `error_handler.py`, plus the
optional HTTP status carried by `exception.response`. -/

/-- Shallow model of a Python exception as observed by `error_handler.py`. -/
structure PyException where
  msg : String
  is_timeout_type : Bool
  is_http_error_type : Bool
  is_ssl_error_type : Bool
  is_connection_error_type : Bool
  is_webdriver_type : Bool
  is_value_error_type : Bool
  is_gaierror_type : Bool
  http_status : Option Nat
deriving DecidableEq, Repr

/-- A plain `Exception(msg)`: no structural test matches, no response. -/
def mkExc (msg : String) : PyException :=
  ⟨msg, false, false, false, false, false, false, false, none⟩

/-! ## Failure classifier (`error_handler.py`) -/

def timeout_indicators : List String :=
  ["timeout", "timed out", "read timeout", "connection timeout",
   "request timeout", "response timeout"]

/-- `ErrorHandler._is_timeout_error`. -/
def is_timeout_error (e : PyException) (error_message : String) : Bool :=
  e.is_timeout_type || timeout_indicators.any (fun ind => strContains error_message ind)

def http_indicators : List String :=
  ["http error", "status code", "404", "403", "500", "502", "503", "504",
   "bad request", "unauthorized", "forbidden", "not found",
   "internal server error", "bad gateway", "service unavailable"]

/-- Whether `c` is a regex word character (`[A-Za-z0-9_]`). -/
def isWordChar (c : Char) : Bool :=
  c.isAlpha || c.isDigit || c == '_'

/-- Scan for the pattern `\b[4-5]\d{2}\b` in a character list, given the
preceding character (`none` at the start of the string). -/
def hasStatusCodeFrom : Option Char → List Char → Bool
  | _, [] => false
  | prev, c1 :: rest1 =>
    (match rest1 with
     | c2 :: c3 :: rest =>
       (c1 == '4' || c1 == '5') && c2.isDigit && c3.isDigit &&
       (match prev with
        | none => true
        | some p => !isWordChar p) &&
       (match rest with
        | [] => true
        | r :: _ => !isWordChar r)
     | _ => false) ||
    hasStatusCodeFrom (some c1) rest1

/-- `re.search(r'\b[4-5]\d{2}\b', error_message)` as a Boolean. -/
def has_http_status_code_pattern (error_message : String) : Bool :=
  hasStatusCodeFrom none error_message.toList

/-- `ErrorHandler._is_http_error`. -/
def is_http_error (e : PyException) (error_message : String) : Bool :=
  e.is_http_error_type
    || http_indicators.any (fun ind => strContains error_message ind)
    || has_http_status_code_pattern error_message

def ssl_indicators : List String :=
  ["ssl", "certificate", "tls", "handshake", "verify failed",
   "certificate_verify_failed", "ssl certificate problem",
   "certificate has expired", "hostname doesn't match"]

/-- `ErrorHandler._is_ssl_error`. -/
def is_ssl_error (e : PyException) (error_message : String) : Bool :=
  e.is_ssl_error_type || ssl_indicators.any (fun ind => strContains error_message ind)

def network_indicators : List String :=
  ["connection error", "network error", "connection refused",
   "connection reset", "connection aborted", "network unreachable",
   "host unreachable", "no route to host"]

/-- `ErrorHandler._is_network_error`. -/
def is_network_error (e : PyException) (error_message : String) : Bool :=
  e.is_connection_error_type || network_indicators.any (fun ind => strContains error_message ind)

def browser_indicators : List String :=
  ["webdriver", "selenium", "chrome", "browser", "driver",
   "session not created", "invalid session", "element not found",
   "element not interactable", "unexpected alert"]

/-- `ErrorHandler._is_browser_error`. -/
def is_browser_error (e : PyException) (error_message : String) : Bool :=
  e.is_webdriver_type || browser_indicators.any (fun ind => strContains error_message ind)

def parse_indicators : List String :=
  ["parse error", "parsing", "invalid json", "decode error",
   "encoding error", "unicode error", "malformed", "failed to parse"]

/-- `ErrorHandler._is_parse_error`. -/
def is_parse_error (e : PyException) (error_message : String) : Bool :=
  e.is_value_error_type || parse_indicators.any (fun ind => strContains error_message ind)

def dns_indicators : List String :=
  ["name or service not known", "nodename nor servname provided",
   "getaddrinfo failed", "no address associated with hostname",
   "dns", "name resolution", "hostname"]

/-- `ErrorHandler._is_dns_error`. -/
def is_dns_error (e : PyException) (error_message : String) : Bool :=
  e.is_gaierror_type || dns_indicators.any (fun ind => strContains error_message ind)

/-- `ErrorHandler.categorize_error`: the ordered classification chain. -/
def categorize_error (e : PyException) : ErrorCategory :=
  let error_message := strLower e.msg
  if is_dns_error e error_message then .dns_error
  else if is_ssl_error e error_message then .ssl_error
  else if is_timeout_error e error_message then .timeout_error
  else if is_browser_error e error_message then .browser_error
  else if is_http_error e error_message then .http_error
  else if is_parse_error e error_message then .parse_error
  else if is_network_error e error_message then .network_error
  else .unknown_error

/-- `ErrorHandler.should_retry`: DNS, SSL and parse failures are not
retryable, everything else is. -/
def handler_should_retry (error_category : ErrorCategory) : Bool :=
  !([ErrorCategory.dns_error, ErrorCategory.ssl_error,
     ErrorCategory.parse_error].contains error_category)

/-- `ErrorHandler.is_retryable_http_status`. -/
def is_retryable_http_status (status_code : Nat) : Bool :=
  if 500 ≤ status_code && status_code < 600 then true
  else if status_code == 429 then true
  else if status_code == 408 then true
  else if 400 ≤ status_code && status_code < 500 then false
  else false

/-! ## Spec-side view of the classifier: an ordered rule table.

The claim describes `categorize_error` as evaluating an ordered rule list
(first match wins, default `Unknown`).  The rule table is written here as
data, in the spec's priority order
DnsResolution > Tls > Timeout > RenderingEngine > Http > Parse > Network. -/

/-- The classification rules as an ordered decision table. -/
def classification_rules : List (ErrorCategory × (PyException → String → Bool)) :=
  [(.dns_error, is_dns_error),
   (.ssl_error, is_ssl_error),
   (.timeout_error, is_timeout_error),
   (.browser_error, is_browser_error),
   (.http_error, is_http_error),
   (.parse_error, is_parse_error),
   (.network_error, is_network_error)]

/-- First matching rule wins; no match defaults to `Unknown`. -/
def first_matching_category :
    List (ErrorCategory × (PyException → String → Bool)) → PyException → String → ErrorCategory
  | [], _, _ => .unknown_error
  | (cat, test) :: rest, e, m =>
    if test e m then cat else first_matching_category rest e m

example : categorize_error (mkExc "Read timed out") = .timeout_error := by decide
example : categorize_error (mkExc "foo") = .unknown_error := by decide
example : categorize_error (mkExc "HTTP 503: unavailable") = .http_error := by decide

/-! ## Retry configuration and backoff (`models.py`, `retry_manager.py`) -/

/-- `models.RetryConfig`.  Float fields are modelled over `ℚ`. -/
structure RetryConfig where
  max_attempts : Nat
  backoff_base : ℚ
  backoff_multiplier : ℚ
  non_retryable_errors : List ErrorCategory
deriving DecidableEq

/-- `models.RetryConfig.get_backoff_delay`:
`backoff_base * backoff_multiplier ** (attempt - 1)` (unguarded). -/
def RetryConfig.get_backoff_delay (c : RetryConfig) (attempt : Int) : ℚ :=
  c.backoff_base * c.backoff_multiplier ^ (attempt - 1)

/-- `RetryManager.get_backoff_delay`: `0.0` for `attempt <= 0`, otherwise
the configuration's backoff calculation. -/
def RetryManager.get_backoff_delay (c : RetryConfig) (attempt : Int) : ℚ :=
  if attempt ≤ 0 then 0 else c.get_backoff_delay attempt

/-- `RetryManager.should_retry`: max-attempt cutoff, then the per-call
non-retryable set, then the error handler's fixed rule. -/
def RetryManager.should_retry (c : RetryConfig) (error_category : ErrorCategory)
    (attempt : Nat) : Bool :=
  if c.max_attempts ≤ attempt then false
  else if c.non_retryable_errors.contains error_category then false
  else handler_should_retry error_category

/-! ## Retry orchestrator (`retry_manager.py`) -/

/-- `retry_manager.RetryAttempt`. -/
structure RetryAttempt where
  attempt_number : Nat
  error_category : ErrorCategory
  error_message : String
  delay_before_attempt : ℚ
deriving DecidableEq

/-- `retry_manager.RetryHistory` (timestamps omitted: wall-clock). -/
structure RetryHistory where
  url : String
  total_attempts : Nat
  success : Bool
  final_error : Option String
  attempts : List RetryAttempt
  total_retry_time : ℚ
deriving DecidableEq

/-- `RetryHistory.add_attempt`. -/
def RetryHistory.add_attempt (h : RetryHistory) (a : RetryAttempt) : RetryHistory :=
  { h with attempts := h.attempts ++ [a],
           total_retry_time := h.total_retry_time + a.delay_before_attempt }

/-- The retry count the pipeline derives from a history:
`max(0, total_attempts - 1)` (truncated subtraction on `Nat`). -/
def retry_count_of (h : RetryHistory) : Nat :=
  h.total_attempts - 1

/-- The operation wrapped by the orchestrator: each invocation (indexed by
its 1-based attempt number) either returns a value or raises. -/
abbrev RetryOp (α : Type) := Nat → Except PyException α

/-- The body of `RetryManager.execute_with_retry`'s `for` loop, starting at
`attempt` with `fuel` iterations left (`fuel = max_attempts - attempt + 1`).
The result's error is the last raised exception; `Except.error none` is the
`RuntimeError` fallback reached only when the loop never ran. -/
def execute_from (c : RetryConfig) (op : RetryOp α) :
    Nat → Nat → RetryHistory → Except (Option PyException) α × RetryHistory
  | _, 0, history => (.error none, history)
  | attempt, fuel + 1, history =>
    let history := { history with total_attempts := attempt }
    match op attempt with
    | .ok result => (.ok result, { history with success := true })
    | .error e =>
      let error_category := categorize_error e
      let error_message := e.msg
      let retry_attempt : RetryAttempt := ⟨attempt, error_category, error_message, 0⟩
      if !(RetryManager.should_retry c error_category attempt) then
        (.error (some e),
         { history.add_attempt retry_attempt with
             final_error := some (error_category.val ++ ": " ++ error_message) })
      else if c.max_attempts ≤ attempt then
        (.error (some e),
         { history.add_attempt retry_attempt with
             final_error := some (error_category.val ++ ": " ++ error_message) })
      else
        let delay := RetryManager.get_backoff_delay c (Int.ofNat attempt)
        let retry_attempt := { retry_attempt with delay_before_attempt := delay }
        execute_from c op (attempt + 1) fuel (history.add_attempt retry_attempt)

/-- `RetryManager.execute_with_retry`: initialises the history for the
operation's key and runs the attempt loop from attempt 1.  It returns the
result together with the history recorded for the key. -/
def RetryManager.execute_with_retry (c : RetryConfig) (op : RetryOp α)
    (url : String) : Except (Option PyException) α × RetryHistory :=
  execute_from c op 1 c.max_attempts ⟨url, 0, false, none, [], 0⟩

/-- A failure outcome the orchestrator will retry at some attempt below
`max_attempts`: the categorized error is outside the per-call non-retryable
set and the error handler's fixed rule accepts it. -/
def retryable_failure (c : RetryConfig) : Except PyException α → Bool
  | .ok _ => false
  | .error e =>
    !(c.non_retryable_errors.contains (categorize_error e))
      && handler_should_retry (categorize_error e)

example :
    (RetryManager.execute_with_retry ⟨3, 1, 2, [.dns_error, .ssl_error]⟩
      (fun k => if k < 3 then .error (mkExc "Read timed out") else .ok 7) "u").1
      = .ok 7 := by rfl
example :
    (RetryManager.execute_with_retry ⟨3, 1, 2, [.dns_error, .ssl_error]⟩
      (fun k => if k < 3 then .error (mkExc "Read timed out") else .ok 7) "u").2.total_attempts
      = 3 := by decide
example :
    (RetryManager.execute_with_retry ⟨3, 1, 2, [.dns_error, .ssl_error]⟩
      ((fun _ => .error (mkExc "getaddrinfo failed")) : RetryOp Nat)
      "u").2.total_attempts = 1 := by decide

/-! ## Rendering classifier (`website_renderer.py`) -/

/-- `models.DetectionMetrics`, restricted to the fields the weighted-score
classifier reads (latency/timing telemetry fields are wall-clock and
omitted). -/
structure DetectionMetrics where
  content_size_difference : Int
  framework_indicators : List String
  dynamic_content_detected : Bool
  dom_mutation_count : Nat
deriving DecidableEq

/-- The `modern_frameworks` list of `_calculate_weighted_score` and
`_classify_rendering_type`. -/
def modern_frameworks : List String := ["React", "Vue", "Next.js", "Nuxt.js"]

/-- `WebsiteRendererDetector._calculate_weighted_score`.  Float weights are
modelled over `ℚ`. -/
def _calculate_weighted_score (metrics : DetectionMetrics) (frameworks : List String)
    (dynamic_detected : Bool) (mutation_count : Nat) : ℚ :=
  let score : ℚ := 0
  let score :=
    if frameworks ≠ [] then
      let score := score + 0.4
      if frameworks.any (fun fw => modern_frameworks.contains fw) then score + 0.1 else score
    else score
  let size_diff := metrics.content_size_difference
  let score :=
    if size_diff > 2000 then score + 0.3
    else if size_diff > 1000 then score + 0.2
    else if size_diff > 500 then score + 0.1
    else score
  let score := if dynamic_detected then score + 0.2 else score
  let score :=
    if mutation_count > 20 then score + 0.2
    else if mutation_count > 10 then score + 0.1
    else if mutation_count > 5 then score + 0.05
    else score
  let score := if metrics.framework_indicators ≠ [] then score + 0.1 else score
  min score 1

/-- `WebsiteRendererDetector._classify_rendering_type`.  The two browser
probes (`_compare_content` and `_analyze_dynamic_content`) are effectful;
their joint outcome — or the exception one of them raised — is passed in as
the `probe` argument.  The source's `try`/`except` around the whole body
maps the error case to `Server-Side Rendered`. -/
def _classify_rendering_type
    (probe : Except PyException (DetectionMetrics × Bool × Nat))
    (frameworks : List String) : RenderingType :=
  match probe with
  | .error _ => .server_side_rendered
  | .ok (metrics0, dynamic_detected, mutation_count) =>
    let metrics := { metrics0 with dynamic_content_detected := dynamic_detected,
                                   dom_mutation_count := mutation_count }
    let csr_score := _calculate_weighted_score metrics frameworks dynamic_detected mutation_count
    if csr_score ≥ 0.6 then .client_side_rendered
    else if csr_score ≤ 0.3 then .server_side_rendered
    else if frameworks.any (fun fw => modern_frameworks.contains fw) then .client_side_rendered
    else if metrics.content_size_difference > 1000 then .client_side_rendered
    else if mutation_count > 15 then .client_side_rendered
    else .server_side_rendered

/-! ### Spec-side view of the weighted score and the decision rule

These definitions follow the words of the spec (additive per-signal
components capped at 1.0; threshold decision with an ordered tie-break
chain) and are compared with the source functions above. -/

/-- Spec: +0.4 if any framework marker found, +0.1 extra if a modern
framework is among them. -/
def spec_framework_component (frameworks : List String) : ℚ :=
  if frameworks ≠ [] then
    0.4 + (if frameworks.any (fun fw => modern_frameworks.contains fw) then 0.1 else 0)
  else 0

/-- Spec: +0.3/+0.2/+0.1 for contentSizeDelta >2000/>1000/>500, highest
bracket wins. -/
def spec_size_component (delta : Int) : ℚ :=
  if delta > 2000 then 0.3
  else if delta > 1000 then 0.2
  else if delta > 500 then 0.1
  else 0

/-- Spec: +0.2 if the dynamic-content flag is set. -/
def spec_dynamic_component (dynamic_detected : Bool) : ℚ :=
  if dynamic_detected then 0.2 else 0

/-- Spec: +0.2/+0.1/+0.05 for domMutationCount >20/>10/>5, mutually
exclusive. -/
def spec_mutation_component (mutation_count : Nat) : ℚ :=
  if mutation_count > 20 then 0.2
  else if mutation_count > 10 then 0.1
  else if mutation_count > 5 then 0.05
  else 0

/-- Spec: +0.1 if structural framework indicators were found. -/
def spec_indicator_component (framework_indicators : List String) : ℚ :=
  if framework_indicators ≠ [] then 0.1 else 0

/-- The spec's decision rule: thresholds, then the ordered tie-break chain
(modern framework, then contentSizeDelta>1000, then domMutationCount>15,
else server-rendered). -/
def spec_classify_decision (score : ℚ) (frameworks : List String)
    (content_size_delta : Int) (dom_mutation_count : Nat) : RenderingType :=
  if score ≥ 0.6 then .client_side_rendered
  else if score ≤ 0.3 then .server_side_rendered
  else if frameworks.any (fun fw => modern_frameworks.contains fw) then .client_side_rendered
  else if content_size_delta > 1000 then .client_side_rendered
  else if dom_mutation_count > 15 then .client_side_rendered
  else .server_side_rendered

example : _calculate_weighted_score ⟨2500, [], false, 0⟩ [] false 0 = 0.3 := by
  norm_num [_calculate_weighted_score]
example :
    _classify_rendering_type (.ok (⟨0, [], false, 0⟩, false, 0)) ["React"]
      = .client_side_rendered := by
  norm_num [_classify_rendering_type, _calculate_weighted_score, modern_frameworks]

/-! ## Detection pipeline (`website_renderer.py`) -/

/-- `models.ProcessingResult`, restricted to the fields the invariants are
about (`processing_time_sec` and `timestamp` are wall-clock and omitted). -/
structure ProcessingResult where
  url : String
  final_url : String
  rendering_type : RenderingType
  status : ProcessingStatus
  frameworks : List String
  error_category : Option ErrorCategory
  error_message : Option String
  retry_count : Nat
  http_status_code : Option Nat
deriving DecidableEq

/-- The data `_detect_rendering_type_internal` returns on success: the
source always builds it with `status=SUCCESS`, `error_category=None`,
`error_message=None` and the response's status code. -/
structure InternalSuccess where
  final_url : String
  rendering_type : RenderingType
  frameworks : List String
  http_status_code : Nat
deriving DecidableEq

/-- The `ProcessingResult` built by `_detect_rendering_type_internal`. -/
def successResult (original_url : String) (s : InternalSuccess) : ProcessingResult :=
  ⟨original_url, s.final_url, s.rendering_type, .success, s.frameworks,
   none, none, 0, some s.http_status_code⟩

/-- The argument of `detect_rendering_type`: a string, Python's `None`, or
a non-string value.  `not url or not isinstance(url, str)` rejects the
empty string, `None` and every non-string. -/
inductive UrlInput
  | str (s : String)
  | pynone
  | nonstring
deriving DecidableEq

/-- Whether `detect_rendering_type`'s input-validation accepts the input. -/
def UrlInput.isValid : UrlInput → Bool
  | .str s => !(s == "")
  | _ => false

/-- The string echoed into the result's url fields ("" for non-strings). -/
def UrlInput.echo : UrlInput → String
  | .str s => s
  | _ => ""

/-- Protocol prefixing: `'http://' + url` when no scheme is present. -/
def ensure_protocol (s : String) : String :=
  if s.startsWith "http://" || s.startsWith "https://" then s
  else "http://" ++ s

/-- The immediate result for invalid input. -/
def invalid_url_result (original_url : String) : ProcessingResult :=
  ⟨original_url, original_url, .not_accessible, .failed, [],
   some .parse_error, some "Invalid URL format", 0, none⟩

/-- `ErrorHandler.format_error_for_output`, restricted to category, message
and the optional HTTP status (the `[exception_type]` suffix and the
200-character truncation are diagnostic presentation and not modelled). -/
def format_error_for_output (cat : ErrorCategory) (msg : String)
    (status : Option Nat) : String :=
  let formatted := cat.val ++ ": " ++ msg
  match status with
  | some n => formatted ++ " (HTTP " ++ toString n ++ ")"
  | none => formatted

/-- `WebsiteRendererDetector.detect_rendering_type`, also exposing the
retry history recorded for the URL (`none` when validation rejected the
input before the retry orchestrator ran).  The internal detection's
behaviour per attempt is the `op` argument. -/
def detect_rendering_type_full (c : RetryConfig) (op : RetryOp InternalSuccess)
    (input : UrlInput) : ProcessingResult × Option RetryHistory :=
  match input with
  | .str s =>
    if s == "" then (invalid_url_result s, none)
    else
      let url := ensure_protocol s
      match RetryManager.execute_with_retry c op url with
      | (.ok internal, history) =>
        ({ successResult s internal with retry_count := retry_count_of history },
         some history)
      | (.error raised, history) =>
        let e := raised.getD (mkExc "unexpected error in retry logic")
        let error_category := categorize_error e
        (⟨s, url, .not_accessible, .failed, [], some error_category,
          some (format_error_for_output error_category e.msg e.http_status),
          retry_count_of history, e.http_status⟩,
         some history)
  | inp => (invalid_url_result inp.echo, none)

/-- The `ProcessingResult` returned to the caller. -/
def detect_rendering_type (c : RetryConfig) (op : RetryOp InternalSuccess)
    (input : UrlInput) : ProcessingResult :=
  (detect_rendering_type_full c op input).1

example :
    (detect_rendering_type ⟨2, 1, 2, [.dns_error, .ssl_error]⟩
      (fun _ => .ok ⟨"http://x", .server_side_rendered, [], 200⟩)
      (.str "x")).status = .success := by decide
example :
    (detect_rendering_type ⟨2, 1, 2, [.dns_error, .ssl_error]⟩
      (fun _ => .error (mkExc "getaddrinfo failed"))
      (.str "x")).retry_count = 0 := by decide
example :
    (detect_rendering_type ⟨2, 1, 2, [.dns_error, .ssl_error]⟩
      (fun _ => .error (mkExc "Read timed out"))
      (.str "x")).retry_count = 1 := by decide

/-! ## Browser resource pool (`performance_optimizer.py`)

Browser handles are modelled by natural-number identities (`id(browser)`),
handed out by an ever-increasing counter so a freshly created handle is
distinct from every tracked one.  Liveness of a handle (the
`browser.current_url` probe) and the current time are environment inputs.
Usage counts and creation times are the two tracking dictionaries. -/

/-- Lookup in an association list (a Python dict). -/
def lookupA : List (Nat × α) → Nat → Option α
  | [], _ => none
  | (k, v) :: rest, key => if k == key then some v else lookupA rest key

/-- `dict.pop(key, None)`. -/
def popA : List (Nat × α) → Nat → List (Nat × α)
  | [], _ => []
  | p :: rest, key => if p.1 == key then popA rest key else p :: popA rest key

/-- `dict[key] = value`. -/
def setA (l : List (Nat × α)) (key : Nat) (v : α) : List (Nat × α) :=
  (key, v) :: popA l key

/-- The tuning knobs of `PerformanceOptimizer` (defaults 50 uses, 3600 s). -/
structure OptimizerConfig where
  browser_restart_threshold : Nat
  browser_max_age : Int
deriving DecidableEq

def default_optimizer_config : OptimizerConfig := ⟨50, 3600⟩

/-- The pool state: the pool list, the usage/creation tracking dicts, and
the next fresh handle identity. -/
structure PoolState where
  browser_pool : List Nat
  browser_usage_count : List (Nat × Nat)
  browser_creation_time : List (Nat × Int)
  next_id : Nat
deriving DecidableEq

def PoolState.empty : PoolState := ⟨[], [], [], 0⟩

/-- `PerformanceOptimizer._remove_browser_from_pool`. -/
def _remove_browser_from_pool (st : PoolState) (b : Nat) : PoolState :=
  { st with browser_pool := st.browser_pool.erase b,
            browser_usage_count := popA st.browser_usage_count b,
            browser_creation_time := popA st.browser_creation_time b }

/-- The scan of `PerformanceOptimizer._get_reusable_browser` over a copy of
the pool list: dead entries and entries past the usage threshold or the
maximum age are evicted and skipped; the first survivor is returned with
its usage count incremented. -/
def _get_reusable_browser_go (cfg : OptimizerConfig) (alive : Nat → Bool) (now : Int) :
    List Nat → PoolState → Option Nat × PoolState
  | [], st => (none, st)
  | browser :: rest, st =>
    if alive browser = false then
      _get_reusable_browser_go cfg alive now rest (_remove_browser_from_pool st browser)
    else
      let usage_count := (lookupA st.browser_usage_count browser).getD 0
      let creation_time := (lookupA st.browser_creation_time browser).getD now
      let age := now - creation_time
      if cfg.browser_restart_threshold ≤ usage_count || cfg.browser_max_age ≤ age then
        _get_reusable_browser_go cfg alive now rest (_remove_browser_from_pool st browser)
      else
        (some browser,
         { st with browser_usage_count := setA st.browser_usage_count browser (usage_count + 1) })

/-- `PerformanceOptimizer._get_reusable_browser`. -/
def _get_reusable_browser (cfg : OptimizerConfig) (alive : Nat → Bool) (now : Int)
    (st : PoolState) : Option Nat × PoolState :=
  _get_reusable_browser_go cfg alive now st.browser_pool st

/-- `PerformanceOptimizer.get_optimized_browser`: reuse when possible,
otherwise create a fresh handle registered with `usage_count = 0`. -/
def get_optimized_browser (cfg : OptimizerConfig) (alive : Nat → Bool) (now : Int)
    (st : PoolState) : Nat × PoolState :=
  match _get_reusable_browser cfg alive now st with
  | (some browser, st') => (browser, st')
  | (none, st') =>
    let browser := st'.next_id
    (browser,
     { st' with browser_pool := st'.browser_pool ++ [browser],
                browser_usage_count := setA st'.browser_usage_count browser 0,
                browser_creation_time := setA st'.browser_creation_time browser now,
                next_id := st'.next_id + 1 })

/-- The handles returned by `n` successive acquisitions. -/
def acquire_seq (cfg : OptimizerConfig) (alive : Nat → Bool) (now : Int) :
    Nat → PoolState → List Nat × PoolState
  | 0, st => ([], st)
  | n + 1, st =>
    let (b, st') := get_optimized_browser cfg alive now st
    let (rest, st'') := acquire_seq cfg alive now n st'
    (b :: rest, st'')

example :
    (acquire_seq ⟨2, 3600⟩ (fun _ => true) 0 4 .empty).1 = [0, 0, 0, 1] := by decide

/-! ## Claim theorems -/

/-- The framework accumulation step of `_calculate_weighted_score` adds
exactly the spec's framework component. -/
theorem framework_step (score : ℚ) (frameworks : List String) :
    (if frameworks ≠ [] then
       (if frameworks.any (fun fw => modern_frameworks.contains fw) then score + 0.4 + 0.1
        else score + 0.4)
     else score) = score + spec_framework_component frameworks := by
  simp only [spec_framework_component]
  split_ifs <;> ring

/-- The content-size accumulation step adds exactly the spec's size
component. -/
theorem size_step (score : ℚ) (delta : Int) :
    (if delta > 2000 then score + 0.3
     else if delta > 1000 then score + 0.2
     else if delta > 500 then score + 0.1
     else score) = score + spec_size_component delta := by
  simp only [spec_size_component]
  split_ifs <;> ring

/-- The dynamic-content accumulation step adds exactly the spec's
dynamic-content component. -/
theorem dynamic_step (score : ℚ) (dynamic_detected : Bool) :
    (if dynamic_detected then score + 0.2 else score)
      = score + spec_dynamic_component dynamic_detected := by
  simp only [spec_dynamic_component]
  split_ifs <;> ring

/-- The DOM-mutation accumulation step adds exactly the spec's mutation
component. -/
theorem mutation_step (score : ℚ) (mutation_count : Nat) :
    (if mutation_count > 20 then score + 0.2
     else if mutation_count > 10 then score + 0.1
     else if mutation_count > 5 then score + 0.05
     else score) = score + spec_mutation_component mutation_count := by
  simp only [spec_mutation_component]
  split_ifs <;> ring

/-- The structural-indicator accumulation step adds exactly the spec's
indicator component. -/
theorem indicator_step (score : ℚ) (framework_indicators : List String) :
    (if framework_indicators ≠ [] then score + 0.1 else score)
      = score + spec_indicator_component framework_indicators := by
  simp only [spec_indicator_component]
  split_ifs <;> ring

/-- C2: the weighted CSR score is exactly the sum of the five spec
components — framework (+ modern bonus), size bracket, dynamic flag,
mutation bracket, structural indicators — capped at 1.0; and in particular
contentSizeDelta 2500 alone scores exactly 0.3. -/
theorem weighted_score_is_component_sum (metrics : DetectionMetrics)
    (frameworks : List String) (dynamic_detected : Bool) (mutation_count : Nat) :
    _calculate_weighted_score metrics frameworks dynamic_detected mutation_count =
      min (spec_framework_component frameworks
            + spec_size_component metrics.content_size_difference
            + spec_dynamic_component dynamic_detected
            + spec_mutation_component mutation_count
            + spec_indicator_component metrics.framework_indicators) 1 ∧
    _calculate_weighted_score ⟨2500, [], false, 0⟩ [] false 0 = 0.3 := by
  constructor
  · simp only [_calculate_weighted_score]
    rw [framework_step, size_step, dynamic_step, mutation_step, indicator_step]
    congr 1
    ring
  · norm_num [_calculate_weighted_score]

/-- C1: on successful probes the classification follows the spec's decision
rule on the weighted score (≥0.6 client-rendered, ≤0.3 server-rendered,
otherwise tie-breakers in order: modern framework, contentSizeDelta>1000,
domMutationCount>15, default server-rendered); and any exception during
classification is caught and yields ServerRendered. -/
theorem classify_rendering_matches_spec_decision :
    (∀ (metrics : DetectionMetrics) (frameworks : List String)
        (dynamic_detected : Bool) (mutation_count : Nat),
      _classify_rendering_type (.ok (metrics, dynamic_detected, mutation_count)) frameworks =
        spec_classify_decision
          (_calculate_weighted_score
            { metrics with dynamic_content_detected := dynamic_detected,
                           dom_mutation_count := mutation_count }
            frameworks dynamic_detected mutation_count)
          frameworks metrics.content_size_difference mutation_count) ∧
    (∀ (e : PyException) (frameworks : List String),
      _classify_rendering_type (.error e) frameworks = .server_side_rendered) := by
  constructor
  · intro metrics frameworks dynamic_detected mutation_count
    rfl
  · intro e frameworks
    rfl

/-- C6: `categorize_error` is total — it is the first-match evaluation of
the ordered rule table (priority DNS > SSL/TLS > Timeout > Browser > HTTP >
Parse > Network), defaulting to Unknown when no rule matches. -/
theorem categorize_error_is_ordered_first_match :
    (∀ e : PyException,
      categorize_error e = first_matching_category classification_rules e (strLower e.msg)) ∧
    (∀ e : PyException,
      (classification_rules.all fun rule => !(rule.2 e (strLower e.msg))) = true →
      categorize_error e = .unknown_error) := by
  constructor
  · intro e
    rfl
  · intro e h
    simp only [classification_rules, List.all_cons, List.all_nil, Bool.and_true,
      Bool.and_eq_true, Bool.not_eq_true'] at h
    obtain ⟨h1, h2, h3, h4, h5, h6, h7⟩ := h
    simp [categorize_error, h1, h2, h3, h4, h5, h6, h7]

/-- C8: the manager's backoff delay is `base * multiplier^(attempt-1)` for
attempt ≥ 1 and 0 for attempt ≤ 0; hence delay(1) = base, and for base ≥ 0
and multiplier ≥ 1 the delay is monotonically non-decreasing in the attempt
number. -/
theorem backoff_delay_spec (c : RetryConfig) :
    (∀ attempt : Int, 1 ≤ attempt →
      RetryManager.get_backoff_delay c attempt
        = c.backoff_base * c.backoff_multiplier ^ (attempt - 1)) ∧
    (∀ attempt : Int, attempt ≤ 0 → RetryManager.get_backoff_delay c attempt = 0) ∧
    RetryManager.get_backoff_delay c 1 = c.backoff_base ∧
    (0 ≤ c.backoff_base → 1 ≤ c.backoff_multiplier →
      ∀ a b : Int, a ≤ b →
        RetryManager.get_backoff_delay c a ≤ RetryManager.get_backoff_delay c b) := by
  refine ⟨?_, ?_, ?_, ?_⟩
  · intro attempt h
    simp only [RetryManager.get_backoff_delay, RetryConfig.get_backoff_delay]
    rw [if_neg (by omega)]
  · intro attempt h
    simp only [RetryManager.get_backoff_delay]
    rw [if_pos h]
  · simp only [RetryManager.get_backoff_delay, RetryConfig.get_backoff_delay]
    norm_num
  · intro hbase hmult a b hab
    simp only [RetryManager.get_backoff_delay, RetryConfig.get_backoff_delay]
    split_ifs with ha hb
    · exact le_refl 0
    · exact mul_nonneg hbase (zpow_nonneg (by linarith) _)
    · omega
    · exact mul_le_mul_of_nonneg_left
        (zpow_le_zpow_right₀ hmult (by omega)) hbase

/-- C8 witness: the backoff contract evaluated at a concrete
configuration (max 3 attempts, base 1, multiplier 2). -/
theorem backoff_delay_spec_witness :
    (1 : Int) ≤ 2 ∧ (0 : ℚ) ≤ (1 : ℚ) ∧ (1 : ℚ) ≤ (2 : ℚ) ∧
    RetryManager.get_backoff_delay ⟨3, 1, 2, []⟩ 2 = 1 * (2 : ℚ) ^ ((2 : Int) - 1) ∧
    RetryManager.get_backoff_delay ⟨3, 1, 2, []⟩ 0 = 0 ∧
    RetryManager.get_backoff_delay ⟨3, 1, 2, []⟩ 1 = 1 ∧
    RetryManager.get_backoff_delay ⟨3, 1, 2, []⟩ 1
      ≤ RetryManager.get_backoff_delay ⟨3, 1, 2, []⟩ 2 :=
  ⟨by decide, by decide, by decide,
   (backoff_delay_spec ⟨3, 1, 2, []⟩).1 2 (by decide),
   (backoff_delay_spec ⟨3, 1, 2, []⟩).2.1 0 (by decide),
   (backoff_delay_spec ⟨3, 1, 2, []⟩).2.2.1,
   (backoff_delay_spec ⟨3, 1, 2, []⟩).2.2.2 (by decide) (by decide) 1 2 (by decide)⟩

/-- C9 counterexample: two exceptions carrying the same error message
("foo") receive different categories — a bare `Exception` is Unknown while
a `ValueError` is ParseError — so "same error message ⇒ same category"
fails as stated. -/
theorem categorize_error_message_not_determining :
    ({ mkExc "foo" with is_value_error_type := true } : PyException).msg
        = (mkExc "foo").msg ∧
    categorize_error { mkExc "foo" with is_value_error_type := true }
      ≠ categorize_error (mkExc "foo") := by
  exact ⟨rfl, by decide⟩

/-- C9 (amended): classification is a pure, deterministic function of the
exception's message and structural type: two exceptions agreeing on the
message and on every structural-type test receive the same category,
independently of any attached HTTP response and of call order/history. -/
theorem categorize_error_pure (e1 e2 : PyException)
    (hmsg : e1.msg = e2.msg)
    (h1 : e1.is_timeout_type = e2.is_timeout_type)
    (h2 : e1.is_http_error_type = e2.is_http_error_type)
    (h3 : e1.is_ssl_error_type = e2.is_ssl_error_type)
    (h4 : e1.is_connection_error_type = e2.is_connection_error_type)
    (h5 : e1.is_webdriver_type = e2.is_webdriver_type)
    (h6 : e1.is_value_error_type = e2.is_value_error_type)
    (h7 : e1.is_gaierror_type = e2.is_gaierror_type) :
    categorize_error e1 = categorize_error e2 := by
  cases e1
  cases e2
  dsimp only at hmsg h1 h2 h3 h4 h5 h6 h7
  subst hmsg h1 h2 h3 h4 h5 h6 h7
  rfl

/-- C9 witness: two timeouts that differ only in the attached HTTP
response are categorized identically. -/
theorem categorize_error_pure_witness :
    ({ mkExc "Read timed out" with http_status := some 500 } : PyException).msg
        = (mkExc "Read timed out").msg ∧
    categorize_error { mkExc "Read timed out" with http_status := some 500 }
      = categorize_error (mkExc "Read timed out") :=
  ⟨rfl, categorize_error_pure _ _ rfl rfl rfl rfl rfl rfl rfl rfl⟩

/-- C10: invalid input (empty string, None, or a non-string) short-circuits
`detect_rendering_type`: the result is NotAccessible/Failed with category
Parse, message "Invalid URL format", retryCount 0, no frameworks and no
HTTP status; no retry history is created (the orchestrator never runs) and
the result does not depend on the detection operation at all. -/
theorem invalid_url_short_circuit (c : RetryConfig) (op : RetryOp InternalSuccess)
    (input : UrlInput) (hinvalid : input.isValid = false) :
    (detect_rendering_type c op input).rendering_type = .not_accessible ∧
    (detect_rendering_type c op input).status = .failed ∧
    (detect_rendering_type c op input).error_category = some .parse_error ∧
    (detect_rendering_type c op input).error_message = some "Invalid URL format" ∧
    (detect_rendering_type c op input).retry_count = 0 ∧
    (detect_rendering_type c op input).frameworks = [] ∧
    (detect_rendering_type c op input).http_status_code = none ∧
    (detect_rendering_type_full c op input).2 = none ∧
    (∀ op' : RetryOp InternalSuccess,
      detect_rendering_type c op' input = detect_rendering_type c op input) := by
  cases input with
  | str s =>
    simp only [UrlInput.isValid, Bool.not_eq_false'] at hinvalid
    simp [detect_rendering_type, detect_rendering_type_full, hinvalid, invalid_url_result]
  | pynone =>
    simp [detect_rendering_type, detect_rendering_type_full, invalid_url_result, UrlInput.echo]
  | nonstring =>
    simp [detect_rendering_type, detect_rendering_type_full, invalid_url_result, UrlInput.echo]

/-- C10 witness: the short-circuit contract evaluated at `None`. -/
theorem invalid_url_short_circuit_witness :
    UrlInput.pynone.isValid = false ∧
    (detect_rendering_type ⟨3, 1, 2, [.dns_error, .ssl_error]⟩
      (fun _ => .ok ⟨"http://x", .server_side_rendered, [], 200⟩)
      .pynone).status = .failed :=
  ⟨by decide,
   (invalid_url_short_circuit ⟨3, 1, 2, [.dns_error, .ssl_error]⟩
      (fun _ => .ok ⟨"http://x", .server_side_rendered, [], 200⟩)
      .pynone (by decide)).2.1⟩

/-- Unpack a retryable failure outcome. -/
theorem retryable_failure_error {c : RetryConfig} {r : Except PyException α}
    (h : retryable_failure c r = true) :
    ∃ e, r = .error e ∧
      c.non_retryable_errors.contains (categorize_error e) = false ∧
      handler_should_retry (categorize_error e) = true := by
  cases r with
  | ok v => simp [retryable_failure] at h
  | error e =>
    simp only [retryable_failure, Bool.and_eq_true, Bool.not_eq_true'] at h
    exact ⟨e, rfl, h.1, h.2⟩

/-- `should_retry` accepts a retryable category strictly before the last
attempt. -/
theorem should_retry_of_retryable {c : RetryConfig} {cat : ErrorCategory} {attempt : Nat}
    (hlt : attempt < c.max_attempts)
    (hmem : c.non_retryable_errors.contains cat = false)
    (hh : handler_should_retry cat = true) :
    RetryManager.should_retry c cat attempt = true := by
  have hmem' : cat ∉ c.non_retryable_errors := by simpa using hmem
  simp [RetryManager.should_retry, Nat.not_le.mpr hlt, hmem', hh]

/-- The attempt loop, started at `attempt` with enough fuel, runs through
retryable failures up to attempt `N` and succeeds there. -/
theorem execute_from_reaches_success (c : RetryConfig) (op : RetryOp α) (N : Nat) (v : α)
    (hmaxN : N ≤ c.max_attempts) (hsucc : op N = .ok v) :
    ∀ (fuel attempt : Nat) (history : RetryHistory),
      1 ≤ attempt → attempt ≤ N → N < attempt + fuel →
      (∀ k, attempt ≤ k → k < N → retryable_failure c (op k) = true) →
      (execute_from c op attempt fuel history).1 = .ok v ∧
      (execute_from c op attempt fuel history).2.total_attempts = N ∧
      (execute_from c op attempt fuel history).2.success = true := by
  intro fuel
  induction fuel with
  | zero =>
    intro attempt history _ _ h3 _
    omega
  | succ f ih =>
    intro attempt history h1 h2 h3 hfail
    by_cases heq : attempt = N
    · subst heq
      simp [execute_from, hsucc]
    · have hlt : attempt < N := lt_of_le_of_ne h2 heq
      obtain ⟨e, hop, hmem, hh⟩ := retryable_failure_error (hfail attempt le_rfl hlt)
      have hsr : RetryManager.should_retry c (categorize_error e) attempt = true :=
        should_retry_of_retryable (by omega) hmem hh
      have hnotmax : ¬ (c.max_attempts ≤ attempt) := by omega
      simp only [execute_from, hop, hsr, Bool.not_true, Bool.false_eq_true, if_false,
        hnotmax, if_neg]
      exact ih (attempt + 1) _ (by omega) (by omega) (by omega)
        (fun k hk1 hk2 => hfail k (by omega) hk2)

/-- C4: an operation that fails N−1 times with retryable failures and
succeeds on attempt N, run under a policy with maxAttempts ≥ N, returns the
success value; the recorded history shows N total attempts, so the derived
retryCount is N−1. -/
theorem execute_with_retry_eventual_success (c : RetryConfig) (op : RetryOp α)
    (url : String) (N : Nat) (v : α)
    (hN : 1 ≤ N) (hmax : N ≤ c.max_attempts)
    (hfail : ∀ k, k < N → 1 ≤ k → retryable_failure c (op k) = true)
    (hsucc : op N = .ok v) :
    (RetryManager.execute_with_retry c op url).1 = .ok v ∧
    (RetryManager.execute_with_retry c op url).2.total_attempts = N ∧
    retry_count_of (RetryManager.execute_with_retry c op url).2 = N - 1 ∧
    (RetryManager.execute_with_retry c op url).2.success = true := by
  have h := execute_from_reaches_success c op N v hmax hsucc c.max_attempts 1
    ⟨url, 0, false, none, [], 0⟩ le_rfl hN (by omega)
    (fun k hk1 hk2 => hfail k hk2 hk1)
  exact ⟨h.1, h.2.1,
    by simp [retry_count_of, RetryManager.execute_with_retry, h.2.1], h.2.2⟩

/-- C4 witness: two retryable timeouts then success on attempt 3, with
maxAttempts 3: success value returned, 3 attempts, retryCount 2. -/
theorem execute_with_retry_eventual_success_witness :
    (1 : Nat) ≤ 3 ∧ (3 : Nat) ≤ (3 : Nat) ∧
    (∀ k, k < 3 → 1 ≤ k →
      retryable_failure ⟨3, 1, 2, [.dns_error, .ssl_error]⟩
        ((fun k => if k < 3 then .error (mkExc "Read timed out") else .ok 42) k : Except PyException Nat) = true) ∧
    (RetryManager.execute_with_retry ⟨3, 1, 2, [.dns_error, .ssl_error]⟩
       (fun k => if k < 3 then .error (mkExc "Read timed out") else .ok 42) "u").1 = .ok 42 ∧
    (RetryManager.execute_with_retry ⟨3, 1, 2, [.dns_error, .ssl_error]⟩
       (fun k => if k < 3 then .error (mkExc "Read timed out") else .ok 42) "u").2.total_attempts = 3 ∧
    retry_count_of (RetryManager.execute_with_retry ⟨3, 1, 2, [.dns_error, .ssl_error]⟩
       (fun k => if k < 3 then .error (mkExc "Read timed out") else .ok 42) "u").2 = 2 := by
  refine ⟨by decide, by decide, by decide, ?_⟩
  have h := execute_with_retry_eventual_success ⟨3, 1, 2, [.dns_error, .ssl_error]⟩
    (fun k => if k < 3 then .error (mkExc "Read timed out") else .ok 42) "u" 3 42
    (by decide) (by decide) (by decide) rfl
  exact ⟨h.1, h.2.1, h.2.2.1⟩

/-- C5: an operation whose first failure classifies as non-retryable —
rejected by the handler's fixed rule or in the caller-supplied
non-retryable set — is invoked exactly once regardless of maxAttempts,
and that failure is surfaced as the final error (and recorded as the
history's final error). -/
theorem execute_with_retry_non_retryable (c : RetryConfig) (op : RetryOp α)
    (url : String) (e : PyException)
    (hmax : 1 ≤ c.max_attempts)
    (h1 : op 1 = .error e)
    (hnr : c.non_retryable_errors.contains (categorize_error e) = true
           ∨ handler_should_retry (categorize_error e) = false) :
    (RetryManager.execute_with_retry c op url).1 = .error (some e) ∧
    (RetryManager.execute_with_retry c op url).2.total_attempts = 1 ∧
    (RetryManager.execute_with_retry c op url).2.attempts.length = 1 ∧
    (RetryManager.execute_with_retry c op url).2.final_error
      = some ((categorize_error e).val ++ ": " ++ e.msg) := by
  obtain ⟨f, hf⟩ : ∃ f, c.max_attempts = f + 1 := ⟨c.max_attempts - 1, by omega⟩
  have hsr : RetryManager.should_retry c (categorize_error e) 1 = false := by
    simp only [RetryManager.should_retry]
    split_ifs with hle hmem
    · rfl
    · rfl
    · rcases hnr with h | h
      · exact absurd h hmem
      · exact h
  simp [RetryManager.execute_with_retry, hf, execute_from, h1, hsr, RetryHistory.add_attempt]

/-- C5 witness: an SSL certificate failure (non-retryable both by the fixed
rule and by the caller's set) under maxAttempts 3: exactly one attempt. -/
theorem execute_with_retry_non_retryable_witness :
    (1 : Nat) ≤ 3 ∧
    ((fun _ => .error (mkExc "certificate verify failed")) : RetryOp Nat) 1
      = .error (mkExc "certificate verify failed") ∧
    ([ErrorCategory.dns_error, ErrorCategory.ssl_error].contains
       (categorize_error (mkExc "certificate verify failed")) = true
     ∨ handler_should_retry (categorize_error (mkExc "certificate verify failed")) = false) ∧
    (RetryManager.execute_with_retry ⟨3, 1, 2, [.dns_error, .ssl_error]⟩
       ((fun _ => .error (mkExc "certificate verify failed")) : RetryOp Nat) "u").1
      = .error (some (mkExc "certificate verify failed")) ∧
    (RetryManager.execute_with_retry ⟨3, 1, 2, [.dns_error, .ssl_error]⟩
       ((fun _ => .error (mkExc "certificate verify failed")) : RetryOp Nat) "u").2.total_attempts
      = 1 := by
  refine ⟨by decide, rfl, by decide, ?_⟩
  have h := execute_with_retry_non_retryable ⟨3, 1, 2, [.dns_error, .ssl_error]⟩
    ((fun _ => .error (mkExc "certificate verify failed")) : RetryOp Nat) "u"
    (mkExc "certificate verify failed") (by decide) rfl (by decide)
  exact ⟨h.1, h.2.1⟩

/-- Removing one key from a dict leaves other keys' lookups unchanged. -/
theorem lookupA_popA (l : List (Nat × α)) (k b : Nat) (hne : b ≠ k) :
    lookupA (popA l k) b = lookupA l b := by
  induction l with
  | nil => rfl
  | cons p rest ih =>
    obtain ⟨pk, pv⟩ := p
    simp only [popA, lookupA]
    by_cases hp : pk = k
    · subst hp
      have h2 : (pk == b) = false := beq_eq_false_iff_ne.mpr (fun hh => hne hh.symm)
      simp [h2, ih]
    · have h1 : (pk == k) = false := beq_eq_false_iff_ne.mpr hp
      by_cases hpb : pk = b
      · subst hpb
        simp [h1, lookupA]
      · have h2 : (pk == b) = false := beq_eq_false_iff_ne.mpr hpb
        simp [h1, h2, lookupA, ih]

/-- The pool scan only ever returns a handle from the scanned list. -/
theorem _get_reusable_browser_go_mem (cfg : OptimizerConfig) (alive : Nat → Bool) (now : Int) :
    ∀ (l : List Nat) (st : PoolState) (x : Nat),
      (_get_reusable_browser_go cfg alive now l st).1 = some x → x ∈ l := by
  intro l
  induction l with
  | nil =>
    intro st x h
    simp [_get_reusable_browser_go] at h
  | cons c0 rest ih =>
    intro st x h
    simp only [_get_reusable_browser_go] at h
    split_ifs at h with h1 h2
    · exact List.mem_cons_of_mem _ (ih _ _ h)
    · exact List.mem_cons_of_mem _ (ih _ _ h)
    · simp only [Option.some.injEq] at h
      subst h
      exact List.mem_cons_self _ _

/-- The pool scan never changes the fresh-handle counter. -/
theorem _get_reusable_browser_go_next_id (cfg : OptimizerConfig) (alive : Nat → Bool) (now : Int) :
    ∀ (l : List Nat) (st : PoolState),
      (_get_reusable_browser_go cfg alive now l st).2.next_id = st.next_id := by
  intro l
  induction l with
  | nil => intro st; rfl
  | cons c0 rest ih =>
    intro st
    simp only [_get_reusable_browser_go]
    split_ifs with h1 h2
    · exact ih _
    · exact ih _
    · rfl

/-- The pool scan never returns an entry whose recorded usage count has
reached the restart threshold or whose recorded creation time makes it at
least `max_age` old (provided the scanned list has no duplicate handles,
which holds for the real pool since `id()` values are distinct). -/
theorem _get_reusable_browser_go_skips_aged (cfg : OptimizerConfig) (alive : Nat → Bool)
    (now : Int) (b : Nat) :
    ∀ (l : List Nat) (st : PoolState), l.Nodup →
      ((∃ u, lookupA st.browser_usage_count b = some u ∧ cfg.browser_restart_threshold ≤ u) ∨
       (∃ t, lookupA st.browser_creation_time b = some t ∧ cfg.browser_max_age ≤ now - t)) →
      (_get_reusable_browser_go cfg alive now l st).1 ≠ some b := by
  intro l
  induction l with
  | nil =>
    intro st _ _
    simp [_get_reusable_browser_go]
  | cons c0 rest ih =>
    intro st hnodup hbad
    have hnotmem := (List.nodup_cons.mp hnodup).1
    have hnodup' := (List.nodup_cons.mp hnodup).2
    by_cases hcb : c0 = b
    · subst hcb
      simp only [_get_reusable_browser_go]
      split_ifs with h1 h2
      · intro hres
        exact hnotmem (_get_reusable_browser_go_mem cfg alive now rest _ c0 hres)
      · intro hres
        exact hnotmem (_get_reusable_browser_go_mem cfg alive now rest _ c0 hres)
      · exfalso
        apply h2
        rcases hbad with ⟨u, hu, hthr⟩ | ⟨t, ht, hage⟩
        · simp only [hu, Option.getD_some, Bool.or_eq_true, decide_eq_true_eq]
          exact Or.inl hthr
        · simp only [ht, Option.getD_some, Bool.or_eq_true, decide_eq_true_eq]
          exact Or.inr hage
    · have husage := lookupA_popA st.browser_usage_count c0 b (Ne.symm hcb)
      have hcreation := lookupA_popA st.browser_creation_time c0 b (Ne.symm hcb)
      have hbad' :
          (∃ u, lookupA (_remove_browser_from_pool st c0).browser_usage_count b = some u ∧
              cfg.browser_restart_threshold ≤ u) ∨
          (∃ t, lookupA (_remove_browser_from_pool st c0).browser_creation_time b = some t ∧
              cfg.browser_max_age ≤ now - t) := by
        rcases hbad with ⟨u, hu, hthr⟩ | ⟨t, ht, hage⟩
        · exact Or.inl ⟨u, by simp [_remove_browser_from_pool, husage, hu], hthr⟩
        · exact Or.inr ⟨t, by simp [_remove_browser_from_pool, hcreation, ht], hage⟩
      simp only [_get_reusable_browser_go]
      split_ifs with h1 h2
      · exact ih _ hnodup' hbad'
      · exact ih _ hnodup' hbad'
      · simp only [ne_eq, Option.some.injEq]
        exact hcb

/-- C7 counterexample: with the default restartThreshold of 50, the first
50 acquisitions from an empty pool all return handle 0 — and the next
acquire (the 51st) returns handle 0 again, because the creating
acquisition does not increment the usage count (the count only reaches 50
after the 51st return).  This refutes "after restartThreshold acquisitions
have returned the same pooled handle, the next acquire does not return
that handle again" as stated. -/
theorem pool_threshold_off_by_one :
    (acquire_seq default_optimizer_config (fun _ => true) 0 51 .empty).1
      = List.replicate 51 0 := by decide

/-- C7 (amended): an entry whose recorded usage count has reached
restartThreshold, or whose age has reached maxAge, is never returned by
the next acquire — it is evicted when scanned and a different (possibly
fresh) handle is returned; concretely, with the default threshold 50 the
handle created by acquisition 1 is returned by acquisitions 1–51 (one
creation plus 50 reuses) and acquisition 52 returns a new handle. -/
theorem aged_entry_not_reacquired (cfg : OptimizerConfig) (alive : Nat → Bool) (now : Int)
    (st : PoolState) (b : Nat)
    (hnodup : st.browser_pool.Nodup)
    (hfresh : b ≠ st.next_id)
    (hbad : (∃ u, lookupA st.browser_usage_count b = some u ∧
                cfg.browser_restart_threshold ≤ u) ∨
            (∃ t, lookupA st.browser_creation_time b = some t ∧
                cfg.browser_max_age ≤ now - t)) :
    (get_optimized_browser cfg alive now st).1 ≠ b ∧
    (acquire_seq default_optimizer_config (fun _ => true) 0 52 .empty).1
      = List.replicate 51 0 ++ [1] := by
  constructor
  · have hskip := _get_reusable_browser_go_skips_aged cfg alive now b
      st.browser_pool st hnodup hbad
    have hnid := _get_reusable_browser_go_next_id cfg alive now st.browser_pool st
    simp only [get_optimized_browser, _get_reusable_browser]
    cases hres : _get_reusable_browser_go cfg alive now st.browser_pool st with
    | mk o st' =>
      rw [hres] at hskip hnid
      cases o with
      | some x =>
        simp only []
        exact fun hh => hskip (by rw [hh])
      | none =>
        simp only []
        rw [hnid]
        exact Ne.symm hfresh
  · decide

/-- C7 witness: a pool holding one handle (id 0) with usage count already
at the default threshold 50: the next acquire does not return it. -/
theorem aged_entry_not_reacquired_witness :
    ([0] : List Nat).Nodup ∧ (0 : Nat) ≠ (1 : Nat) ∧
    lookupA [(0, 50)] 0 = some 50 ∧ (50 : Nat) ≤ 50 ∧
    (get_optimized_browser default_optimizer_config (fun _ => true) 0
      ⟨[0], [(0, 50)], [(0, 0)], 1⟩).1 ≠ 0 :=
  ⟨by decide, by decide, by decide, by decide,
   (aged_entry_not_reacquired default_optimizer_config (fun _ => true) 0
      ⟨[0], [(0, 50)], [(0, 0)], 1⟩ 0 (by decide) (by decide)
      (Or.inl ⟨50, by decide, by decide⟩)).1⟩

/-- The attempt loop never records more total attempts than the configured
maximum. -/
theorem execute_from_total_attempts_le (c : RetryConfig) (op : RetryOp α) :
    ∀ (fuel attempt : Nat) (history : RetryHistory),
      attempt ≤ c.max_attempts → history.total_attempts ≤ c.max_attempts →
      (execute_from c op attempt fuel history).2.total_attempts ≤ c.max_attempts := by
  intro fuel
  induction fuel with
  | zero =>
    intro attempt history _ hh
    exact hh
  | succ f ih =>
    intro attempt history ha hh
    cases hop : op attempt with
    | ok v =>
      simp only [execute_from, hop]
      exact ha
    | error e =>
      simp only [execute_from, hop]
      split_ifs with h1 h2
      · exact ha
      · exact ha
      · exact ih (attempt + 1) _ (by omega) (by simp [RetryHistory.add_attempt]; omega)

/-- C3: every result of `detect_rendering_type` (with maxAttempts ≥ 1) has
status Failed exactly when a failure category is present, an empty
frameworks list whenever it failed, and a retry count equal to the recorded
history's total attempts minus 1, always ≥ 0 and strictly below
maxAttempts. -/
theorem detect_result_invariants (c : RetryConfig) (op : RetryOp InternalSuccess)
    (input : UrlInput) (hmax : 1 ≤ c.max_attempts) :
    ((detect_rendering_type c op input).status = .failed
        ↔ (detect_rendering_type c op input).error_category.isSome = true) ∧
    ((detect_rendering_type c op input).status = .failed
        → (detect_rendering_type c op input).frameworks = []) ∧
    (∀ h : RetryHistory, (detect_rendering_type_full c op input).2 = some h →
        (detect_rendering_type c op input).retry_count = h.total_attempts - 1) ∧
    0 ≤ (detect_rendering_type c op input).retry_count ∧
    (detect_rendering_type c op input).retry_count < c.max_attempts := by
  cases input with
  | pynone =>
    refine ⟨by simp [detect_rendering_type, detect_rendering_type_full, invalid_url_result],
      fun _ => by simp [detect_rendering_type, detect_rendering_type_full, invalid_url_result],
      fun h hh => by simp [detect_rendering_type_full] at hh,
      Nat.zero_le _,
      by simpa [detect_rendering_type, detect_rendering_type_full, invalid_url_result] using hmax⟩
  | nonstring =>
    refine ⟨by simp [detect_rendering_type, detect_rendering_type_full, invalid_url_result],
      fun _ => by simp [detect_rendering_type, detect_rendering_type_full, invalid_url_result],
      fun h hh => by simp [detect_rendering_type_full] at hh,
      Nat.zero_le _,
      by simpa [detect_rendering_type, detect_rendering_type_full, invalid_url_result] using hmax⟩
  | str s =>
    by_cases hs : (s == "") = true
    · refine ⟨by simp [detect_rendering_type, detect_rendering_type_full, hs, invalid_url_result],
        fun _ => by simp [detect_rendering_type, detect_rendering_type_full, hs, invalid_url_result],
        fun h hh => by simp [detect_rendering_type_full, hs] at hh,
        Nat.zero_le _,
        by simpa [detect_rendering_type, detect_rendering_type_full, hs, invalid_url_result]
          using hmax⟩
    · have hs' : (s == "") = false := by simpa using hs
      rcases hres : RetryManager.execute_with_retry c op (ensure_protocol s) with ⟨res, hist⟩
      have hbound : hist.total_attempts ≤ c.max_attempts := by
        have hb := execute_from_total_attempts_le c op c.max_attempts 1
          ⟨ensure_protocol s, 0, false, none, [], 0⟩ hmax (Nat.zero_le _)
        rw [show execute_from c op 1 c.max_attempts ⟨ensure_protocol s, 0, false, none, [], 0⟩
              = RetryManager.execute_with_retry c op (ensure_protocol s) from rfl,
            hres] at hb
        exact hb
      cases res with
      | ok internal =>
        have hfull : detect_rendering_type_full c op (.str s)
            = ({ successResult s internal with retry_count := retry_count_of hist },
               some hist) := by
          simp [detect_rendering_type_full, hs', hres]
        refine ⟨by simp [detect_rendering_type, hfull, successResult],
          fun hcon => by simp [detect_rendering_type, hfull, successResult] at hcon,
          fun h hh => ?_, Nat.zero_le _, ?_⟩
        · rw [hfull] at hh
          simp only [Option.some.injEq] at hh
          subst hh
          simp [detect_rendering_type, hfull, retry_count_of]
        · simp only [detect_rendering_type, hfull]
          show retry_count_of hist < c.max_attempts
          simp only [retry_count_of]
          omega
      | error raised =>
        have hfull : detect_rendering_type_full c op (.str s)
            = (⟨s, ensure_protocol s, .not_accessible, .failed, [],
                some (categorize_error ((raised.getD (mkExc "unexpected error in retry logic")))),
                some (format_error_for_output
                  (categorize_error (raised.getD (mkExc "unexpected error in retry logic")))
                  (raised.getD (mkExc "unexpected error in retry logic")).msg
                  (raised.getD (mkExc "unexpected error in retry logic")).http_status),
                retry_count_of hist,
                (raised.getD (mkExc "unexpected error in retry logic")).http_status⟩,
               some hist) := by
          simp [detect_rendering_type_full, hs', hres]
        refine ⟨by simp [detect_rendering_type, hfull],
          fun _ => by simp [detect_rendering_type, hfull],
          fun h hh => ?_, Nat.zero_le _, ?_⟩
        · rw [hfull] at hh
          simp only [Option.some.injEq] at hh
          subst hh
          simp [detect_rendering_type, hfull, retry_count_of]
        · simp only [detect_rendering_type, hfull]
          show retry_count_of hist < c.max_attempts
          simp only [retry_count_of]
          omega

/-- C3 witness: the invariants evaluated at a concrete configuration and a
detection that succeeds on the first attempt. -/
theorem detect_result_invariants_witness :
    (1 : Nat) ≤ 3 ∧
    (((detect_rendering_type ⟨3, 1, 2, [.dns_error, .ssl_error]⟩
        (fun _ => .ok ⟨"http://x", .server_side_rendered, [], 200⟩)
        (.str "x")).status = .failed
      ↔ (detect_rendering_type ⟨3, 1, 2, [.dns_error, .ssl_error]⟩
        (fun _ => .ok ⟨"http://x", .server_side_rendered, [], 200⟩)
        (.str "x")).error_category.isSome = true) ∧
     (detect_rendering_type ⟨3, 1, 2, [.dns_error, .ssl_error]⟩
        (fun _ => .ok ⟨"http://x", .server_side_rendered, [], 200⟩)
        (.str "x")).retry_count < 3) :=
  ⟨by decide,
   (detect_result_invariants ⟨3, 1, 2, [.dns_error, .ssl_error]⟩
      (fun _ => .ok ⟨"http://x", .server_side_rendered, [], 200⟩)
      (.str "x") (by decide)).1,
   (detect_result_invariants ⟨3, 1, 2, [.dns_error, .ssl_error]⟩
      (fun _ => .ok ⟨"http://x", .server_side_rendered, [], 200⟩)
      (.str "x") (by decide)).2.2.2.2⟩

/-- C6 witness: the first-match characterisation and the Unknown default
evaluated at a concrete exception matching no rule. -/
theorem categorize_error_is_ordered_first_match_witness :
    ((classification_rules.all
        fun rule => !(rule.2 (mkExc "foo") (strLower (mkExc "foo").msg))) = true) ∧
    categorize_error (mkExc "foo")
      = first_matching_category classification_rules (mkExc "foo")
          (strLower (mkExc "foo").msg) ∧
    categorize_error (mkExc "foo") = .unknown_error :=
  ⟨by decide,
   categorize_error_is_ordered_first_match.1 (mkExc "foo"),
   categorize_error_is_ordered_first_match.2 (mkExc "foo") (by decide)⟩
